import Mathlib

/-
Verification development for the OpenSASE VPP data-plane plugin
(src/opensase-core/vpp/plugins/opensase).  The C sources are shallowly
embedded: machine integers become Nat with explicit reductions mod 2^w
where overflow matters, f64 time/token values become Rat (all values used
in concrete statements are exactly representable in binary64, and the
operations performed on them -- addition, subtraction, multiplication by
small integers, comparison -- are exact on those values), VPP hash tables
(uword maps keyed by u64) become association lists, and VPP vectors become
lists.  Each embedded function keeps the name of the C function it
translates.
-/

namespace OpenSASE

/-- Rotate-left on 64-bit values, the XXH_rotl64 macro:
(x << r) | (x >> (64 - r)) in u64 arithmetic. -/
def rotl64 (x r : Nat) : Nat :=
  ((x <<< r) % 2 ^ 64) ||| (x >>> (64 - r))

/-- Modelled from the spec: the fast non-cryptographic 64-bit hash of
vppinfra (clib_xxhash in vppinfra/xxhash.h, a VPP dependency that is not
vendored in this repository).  It is xxh64 of a single 8-byte lane.  Every
claim settled below is insensitive to the internals of this function: it is
used only as some fixed function of the 64-bit key, and concrete statements
depend at most on two concrete outputs being unequal. -/
def clib_xxhash (key : Nat) : Nat :=
  let prime1 : Nat := 11400714785074694791
  let prime2 : Nat := 14029467366897019727
  let prime3 : Nat := 1609587929392839161
  let prime4 : Nat := 9650029242287828579
  let prime5 : Nat := 2870177450012600261
  let k1 := key * prime2 % 2 ^ 64
  let k1 := rotl64 k1 31
  let k1 := k1 * prime1 % 2 ^ 64
  let h64 := (0x9e3779b97f4a7c13 + prime5 + 8) % 2 ^ 64
  let h64 := h64 ^^^ k1
  let h64 := (rotl64 h64 27 * prime1 + prime4) % 2 ^ 64
  let h64 := h64 ^^^ (h64 >>> 33)
  let h64 := h64 * prime2 % 2 ^ 64
  let h64 := h64 ^^^ (h64 >>> 29)
  let h64 := h64 * prime3 % 2 ^ 64
  h64 ^^^ (h64 >>> 32)

/-- Lookup in a VPP uword hash table (hash_get), modelled as first match in
an association list from 64-bit key to value. -/
def hash_get (h : List (Nat × Nat)) (k : Nat) : Option Nat :=
  match h.find? (fun kv => kv.1 == k) with
  | some kv => some kv.2
  | none => none

/-- Insert into a VPP uword hash table (hash_set): overwrite the entry for
the key when present, append otherwise. -/
def hash_set (h : List (Nat × Nat)) (k v : Nat) : List (Nat × Nat) :=
  if (h.find? (fun kv => kv.1 == k)).isSome then
    h.map (fun kv => if kv.1 == k then (k, v) else kv)
  else
    h ++ [(k, v)]

/-- Value of the u32 mask expression of node_policy.c and node_tenant.c,
computed as C does: (~0u << (32 - len)) truncated to 32 bits. -/
def u32_high_mask (len : Nat) : Nat :=
  ((2 ^ 32 - 1) <<< (32 - len)) % 2 ^ 32

/-! ## Session tracker (node_security.c) -/

/-- Session states from opensase.h (opensase_session_state_t). -/
def OPENSASE_SESSION_NEW : Nat := 0
def OPENSASE_SESSION_ESTABLISHED : Nat := 1
def OPENSASE_SESSION_CLOSING : Nat := 2
def OPENSASE_SESSION_CLOSED : Nat := 3

/-- IPv4 header fields used by the session, policy and NAT nodes.
Addresses are 32-bit values. -/
structure Ip4Header where
  src_address : Nat
  dst_address : Nat
  protocol : Nat
  deriving DecidableEq, Repr

/-- Packet as seen by the security node: the parsed header, the L4 ports on
the wire, the buffer length (vlib_buffer_length_in_chain), and the TCP flag
byte present on the wire.  node_security.c reads the ports only for
TCP/UDP and never reads tcp_flags. -/
structure Packet where
  ip : Ip4Header
  src_port : Nat
  dst_port : Nat
  len : Nat
  tcp_flags : Nat
  deriving DecidableEq, Repr

/-- Port extraction of the node: ports are read from the L4 header for
TCP (6) and UDP (17), and are 0 for any other protocol. -/
def packet_ports (p : Packet) : Nat × Nat :=
  if p.ip.protocol == 6 || p.ip.protocol == 17 then (p.src_port, p.dst_port)
  else (0, 0)

/-- Session entry (opensase_session_t), the fields touched by the data
path. -/
structure Session where
  src_addr : Nat
  dst_addr : Nat
  src_port : Nat
  dst_port : Nat
  protocol : Nat
  state : Nat
  packets_fwd : Nat
  bytes_fwd : Nat
  packets_rev : Nat
  bytes_rev : Nat
  last_active : Rat
  deriving DecidableEq, Repr

/-- Zeroed session slot, the content of the pre-validated session vector
and the result of the clib_memset in the create path. -/
def zeroSession : Session :=
  { src_addr := 0, dst_addr := 0, src_port := 0, dst_port := 0, protocol := 0,
    state := 0, packets_fwd := 0, bytes_fwd := 0, packets_rev := 0,
    bytes_rev := 0, last_active := 0 }

/-- Per-worker state of the security node (opensase_worker_t): the
pre-allocated session vector (its length is the vec_len capacity bound),
the session count, the 5-tuple-hash to index table, and the counters the
node updates. -/
structure Worker where
  sessions : List Session
  n_sessions : Nat
  session_hash : List (Nat × Nat)
  sessions_created : Nat
  packets_processed : Nat
  deriving DecidableEq, Repr

/-- Hash of the 5-tuple (opensase_session_hash): both 64-bit lanes are
XORed and passed through clib_xxhash. -/
def opensase_session_hash (ip : Ip4Header) (src_port dst_port : Nat) : Nat :=
  let key0 := (ip.src_address <<< 32) ||| ip.dst_address
  let key1 := (src_port <<< 48) ||| (dst_port <<< 32) ||| ip.protocol
  clib_xxhash (key0 ^^^ key1)

/-- Lookup or create a session (opensase_session_lookup_or_create).
Returns the updated worker and, as the C function does through its out
parameters, the session index together with the is_new flag; none models
the NULL return when the table is full. -/
def opensase_session_lookup_or_create (w : Worker) (ip : Ip4Header)
    (src_port dst_port : Nat) (now : Rat) : Worker × Option (Nat × Bool) :=
  let h := opensase_session_hash ip src_port dst_port
  match hash_get w.session_hash h with
  | some idx => (w, some (idx, false))
  | none =>
    if w.n_sessions ≥ w.sessions.length then
      (w, none)
    else
      let idx := w.n_sessions
      let s : Session :=
        { src_addr := ip.src_address, dst_addr := ip.dst_address,
          src_port := src_port, dst_port := dst_port,
          protocol := ip.protocol, state := OPENSASE_SESSION_NEW,
          packets_fwd := 0, bytes_fwd := 0, packets_rev := 0, bytes_rev := 0,
          last_active := now }
      ({ w with
          sessions := w.sessions.set idx s,
          n_sessions := idx + 1,
          session_hash := hash_set w.session_hash h idx,
          sessions_created := w.sessions_created + 1 },
        some (idx, true))

/-- Next-node identifiers of the security node. -/
inductive SecurityNext where
  | policy
  | drop
  | ip4Lookup
  deriving DecidableEq, Repr

/-- Per-packet body of opensase_security_node: extract the ports, look up
or create the session, store the index in the buffer metadata, bump the
forward counters and last_active on the session, and pick the next node.
The four-at-a-time loop and the single-packet loop perform exactly this for
each packet.  Returns the worker, the session_idx metadata value (2^32 - 1
encodes the ~0 miss value) and the next node. -/
def opensase_security_step (w : Worker) (p : Packet) (now : Rat) :
    Worker × Nat × SecurityNext :=
  let ports := packet_ports p
  let r := opensase_session_lookup_or_create w p.ip ports.1 ports.2 now
  match r.2 with
  | none => (r.1, 2 ^ 32 - 1, SecurityNext.drop)
  | some (idx, _) =>
    let w1 := r.1
    let w2 := { w1 with
      sessions := w1.sessions.modify (fun s =>
        { s with
          packets_fwd := s.packets_fwd + 1,
          bytes_fwd := s.bytes_fwd + p.len,
          last_active := now }) idx }
    (w2, idx, SecurityNext.policy)

/-! ## NAT44 (node_nat.c) -/

/-- NAT mapping entry (nat_mapping_t).  The flags and session_idx fields of
the C struct are never written or read on the modelled path and are
omitted. -/
structure NatMapping where
  internal_addr : Nat
  external_addr : Nat
  internal_port : Nat
  external_port : Nat
  protocol : Nat
  tenant_id : Nat
  expire_time : Rat
  deriving DecidableEq, Repr

/-- Per-tenant NAT pool (nat_pool_t). -/
structure NatPool where
  external_addr : Nat
  port_start : Nat
  port_end : Nat
  next_port : Nat
  deriving DecidableEq, Repr

/-- Per-worker NAT state (nat_worker_t).  The mappings vector is modelled
as a growing list: vec_add2 appends the new mapping at index vec_len, and
only indices stored in mapping_hash are ever read back.  tenant_pools is
the 256-entry pool array. -/
structure NatWorker where
  mappings : List NatMapping
  mapping_hash : List (Nat × Nat)
  n_mappings : Nat
  tenant_pools : Nat → NatPool

/-- Packet as seen by the NAT node: IPv4 header plus the two L4 port words
it reads and rewrites. -/
structure NatPacket where
  src_address : Nat
  dst_address : Nat
  protocol : Nat
  src_port : Nat
  dst_port : Nat
  deriving DecidableEq, Repr

/-- NAT 5-tuple hash (nat_hash_key). -/
def nat_hash_key (src dst src_port dst_port proto : Nat) : Nat :=
  let key := (src <<< 32) ||| dst
  let key := key ^^^ ((src_port <<< 48) ||| (dst_port <<< 32) ||| proto)
  clib_xxhash key

/-- Lookup an existing NAT mapping (nat_lookup); returns its index in the
mappings vector. -/
def nat_lookup (w : NatWorker) (src dst src_port dst_port proto : Nat) :
    Option Nat :=
  hash_get w.mapping_hash (nat_hash_key src dst src_port dst_port proto)

/-- Zeroed NAT mapping, the out-of-bounds default of vec_elt_at_index. -/
def zeroNatMapping : NatMapping :=
  { internal_addr := 0, external_addr := 0, internal_port := 0,
    external_port := 0, protocol := 0, tenant_id := 0, expire_time := 0 }

/-- Create a new NAT mapping (nat_create_mapping).  The tenant id is
clamped to 0 at 256, the tenant pool falls back to pool 0 when its
external address is unset, the port is the pool cursor which is
post-incremented (u16) and wrapped to port_start past port_end, and the
mapping is appended and hashed under the internal 5-tuple.  The C function
unconditionally returns the new mapping. -/
def nat_create_mapping (w : NatWorker) (tenant_id internal_addr internal_port
    dst dst_port proto : Nat) (now : Rat) : NatWorker × NatMapping :=
  let tid := if tenant_id ≥ 256 then 0 else tenant_id
  let pidx := if (w.tenant_pools tid).external_addr == 0 then 0 else tid
  let pool := w.tenant_pools pidx
  let nat_port := pool.next_port
  let adv := (pool.next_port + 1) % 2 ^ 16
  let adv := if adv > pool.port_end then pool.port_start else adv
  let m : NatMapping :=
    { internal_addr := internal_addr, external_addr := pool.external_addr,
      internal_port := internal_port, external_port := nat_port,
      protocol := proto, tenant_id := tid, expire_time := now + 300 }
  let mapping_idx := w.mappings.length
  let key := nat_hash_key internal_addr dst internal_port dst_port proto
  ({ w with
      mappings := w.mappings ++ [m],
      mapping_hash := hash_set w.mapping_hash key mapping_idx,
      n_mappings := w.n_mappings + 1,
      tenant_pools := fun i =>
        if i == pidx then { pool with next_port := adv } else w.tenant_pools i },
    m)

/-- Index of the pool nat_create_mapping draws from: the clamped tenant
id, falling back to pool 0 when that tenant pool has no external
address. -/
def natSelectedPool (w : NatWorker) (tenant_id : Nat) : Nat :=
  let tid := if tenant_id ≥ 256 then 0 else tenant_id
  if (w.tenant_pools tid).external_addr == 0 then 0 else tid

/-- Pool cursor after one allocation: the u16 post-increment, wrapped to
port_start when past port_end. -/
def natAdvancedCursor (pool : NatPool) : Nat :=
  let adv := (pool.next_port + 1) % 2 ^ 16
  if adv > pool.port_end then pool.port_start else adv

/-- Apply the NAT translation to the packet (nat_translate): rewrite the
source address, and for TCP/UDP the source port.  The checksum fields the C
function zeroes or recomputes are not part of the modelled packet. -/
def nat_translate (p : NatPacket) (m : NatMapping) : NatPacket :=
  let p := { p with src_address := m.external_addr }
  if p.protocol == 6 || p.protocol == 17 then
    { p with src_port := m.external_port }
  else p

/-- Next-node identifiers of the NAT node. -/
inductive NatNext where
  | encrypt
  | output
  | drop
  deriving DecidableEq, Repr

/-- Per-packet body of opensase_nat_node (both the quad loop and the
single-packet loop): look up the mapping for the internal 5-tuple, create
one on a miss, translate, and continue to the encrypt node; the drop arm
is taken only when the mapping pointer is NULL, which nat_create_mapping
never produces. -/
def opensase_nat_step (w : NatWorker) (p : NatPacket) (tenant_id : Nat)
    (now : Rat) : NatWorker × NatPacket × NatNext :=
  match nat_lookup w p.src_address p.dst_address p.src_port p.dst_port
      p.protocol with
  | some idx =>
    (w, nat_translate p (w.mappings.getD idx zeroNatMapping), NatNext.encrypt)
  | none =>
    let r := nat_create_mapping w tenant_id p.src_address p.src_port
      p.dst_address p.dst_port p.protocol now
    (r.1, nat_translate p r.2, NatNext.encrypt)

/-! ## Policy matcher (node_policy.c, opensase.h) -/

/-- Policy actions from opensase.h (opensase_action_t). -/
def OPENSASE_ACTION_ALLOW : Nat := 0
def OPENSASE_ACTION_DENY : Nat := 1
def OPENSASE_ACTION_LOG : Nat := 2
def OPENSASE_ACTION_RATE_LIMIT : Nat := 3
def OPENSASE_ACTION_REDIRECT : Nat := 4
def OPENSASE_ACTION_ENCRYPT : Nat := 5
def OPENSASE_ACTION_INSPECT_DLP : Nat := 6

/-- Policy entry (opensase_policy_t).  Prefix fields are named src_pfx and
dst_pfx here because identifiers may not end in the word used by the C
field name. -/
structure Policy where
  policy_id : Nat
  priority : Nat
  tenant_id : Nat
  src_pfx : Nat
  dst_pfx : Nat
  src_pfx_len : Nat
  dst_pfx_len : Nat
  src_port_min : Nat
  src_port_max : Nat
  dst_port_min : Nat
  dst_port_max : Nat
  protocol : Nat
  action : Nat
  qos_class : Nat
  deriving DecidableEq, Repr

/-- Slot-in-use test of the match loop: entries with policy_id 0 and
priority 0 are skipped as empty. -/
def policy_in_use (p : Policy) : Bool :=
  !(p.policy_id == 0 && p.priority == 0)

/-- Predicate block of opensase_policy_match: the six continue-guarded
checks, in source order.  A check with a zero predicate field passes
unconditionally; the port-range checks apply whenever either bound is
nonzero. -/
def policy_matches (p : Policy) (ip : Ip4Header) (src_port dst_port
    tenant_id : Nat) : Bool :=
  (p.tenant_id == 0 || p.tenant_id == tenant_id) &&
  (p.src_pfx_len == 0 ||
    (ip.src_address &&& u32_high_mask p.src_pfx_len) ==
      (p.src_pfx &&& u32_high_mask p.src_pfx_len)) &&
  (p.dst_pfx_len == 0 ||
    (ip.dst_address &&& u32_high_mask p.dst_pfx_len) ==
      (p.dst_pfx &&& u32_high_mask p.dst_pfx_len)) &&
  (p.protocol == 0 || p.protocol == ip.protocol) &&
  (!(p.src_port_min != 0 || p.src_port_max != 0) ||
    (p.src_port_min ≤ src_port && src_port ≤ p.src_port_max)) &&
  (!(p.dst_port_min != 0 || p.dst_port_max != 0) ||
    (p.dst_port_min ≤ dst_port && dst_port ≤ p.dst_port_max))

/-- Scan loop of opensase_policy_match over the indexed policy vector,
carrying best_match and best_priority (both initialised to the u32 ~0
sentinel); an in-use matching policy of strictly smaller priority than the
carried best becomes the new best. -/
def policy_match_loop (l : List (Nat × Policy)) (ip : Ip4Header)
    (src_port dst_port tenant_id : Nat) (best_match best_priority : Nat) :
    Nat :=
  match l with
  | [] => best_match
  | (i, p) :: rest =>
    if !(policy_in_use p) then
      policy_match_loop rest ip src_port dst_port tenant_id best_match
        best_priority
    else if policy_matches p ip src_port dst_port tenant_id &&
        p.priority < best_priority then
      policy_match_loop rest ip src_port dst_port tenant_id i p.priority
    else
      policy_match_loop rest ip src_port dst_port tenant_id best_match
        best_priority

/-- Match a packet against the policy vector (opensase_policy_match);
returns the vector index of the selected policy, or 2^32 - 1 (the C ~0)
when none is selected. -/
def opensase_policy_match (policies : List Policy) (ip : Ip4Header)
    (src_port dst_port tenant_id : Nat) : Nat :=
  policy_match_loop policies.enum ip src_port dst_port tenant_id
    (2 ^ 32 - 1) (2 ^ 32 - 1)

/-- Modelled from the spec for comparison with the code: a policy matches
when every predicate (tenant, source prefix, destination prefix, protocol,
source port range, destination port range) matches, where a zero or empty
predicate matches any value.  Prefix agreement is expressed as equality of
the leading prefix-length bits of the 32-bit addresses. -/
def spec_policy_matches (p : Policy) (ip : Ip4Header) (src_port dst_port
    tenant_id : Nat) : Bool :=
  (p.tenant_id == 0 || p.tenant_id == tenant_id) &&
  (p.src_pfx_len == 0 ||
    ip.src_address >>> (32 - p.src_pfx_len) == p.src_pfx >>> (32 - p.src_pfx_len)) &&
  (p.dst_pfx_len == 0 ||
    ip.dst_address >>> (32 - p.dst_pfx_len) == p.dst_pfx >>> (32 - p.dst_pfx_len)) &&
  (p.protocol == 0 || p.protocol == ip.protocol) &&
  ((p.src_port_min == 0 && p.src_port_max == 0) ||
    (p.src_port_min ≤ src_port && src_port ≤ p.src_port_max)) &&
  ((p.dst_port_min == 0 && p.dst_port_max == 0) ||
    (p.dst_port_min ≤ dst_port && dst_port ≤ p.dst_port_max))

/-- Modelled from the spec for comparison with the code: among the indexed
policies whose predicates all match, select the one of lowest numeric
priority, breaking ties by position (insertion order); returns its index
and priority. -/
def spec_select (l : List (Nat × Policy)) (ip : Ip4Header)
    (src_port dst_port tenant_id : Nat) : Option (Nat × Nat) :=
  match l with
  | [] => none
  | (i, p) :: rest =>
    let r := spec_select rest ip src_port dst_port tenant_id
    if !(spec_policy_matches p ip src_port dst_port tenant_id) then r
    else
      match r with
      | none => some (i, p.priority)
      | some (j, q) => if p.priority ≤ q then some (i, p.priority) else some (j, q)

/-- Next-node identifiers of the policy node. -/
inductive PolicyNext where
  | dlp
  | classify
  | drop
  | ip4Lookup
  deriving DecidableEq, Repr

/-- Next-node selection of opensase_policy_node for one packet: when the
match returned an index, deny goes to drop, inspect_dlp to the DLP node,
and every other action to the classify node; when no policy matched, the
packet goes to DLP exactly when DLP is globally enabled, else to
classify.  The metadata writes (policy_id, qos_class) and the counter
updates of the node do not affect the chosen next node and are not
modelled. -/
def opensase_policy_node_next (policies : List Policy) (ip : Ip4Header)
    (src_port dst_port tenant_id : Nat) (dlp_enabled : Bool) : PolicyNext :=
  let idx := opensase_policy_match policies ip src_port dst_port tenant_id
  if idx != 2 ^ 32 - 1 then
    let p := policies.getD idx
      { policy_id := 0, priority := 0, tenant_id := 0, src_pfx := 0,
        dst_pfx := 0, src_pfx_len := 0, dst_pfx_len := 0, src_port_min := 0,
        src_port_max := 0, dst_port_min := 0, dst_port_max := 0,
        protocol := 0, action := 0, qos_class := 0 }
    if p.action == OPENSASE_ACTION_DENY then PolicyNext.drop
    else if p.action == OPENSASE_ACTION_INSPECT_DLP then PolicyNext.dlp
    else PolicyNext.classify
  else if dlp_enabled then PolicyNext.dlp
  else PolicyNext.classify

/-! ## Tenant classifier (node_tenant.c) -/

/-- Tenant table entry (tenant_entry_t); the prefix field is named
src_pfx for the reason given at Policy. -/
structure TenantEntry where
  src_pfx : Nat
  pfx_len : Nat
  tenant_id : Nat
  vrf_id : Nat
  valid : Bool
  deriving DecidableEq, Repr

/-- Hash bucket of four entries (tenant_bucket_t). -/
structure TenantBucket where
  entries : List TenantEntry
  deriving DecidableEq, Repr

/-- Empty tenant entry, the zero-initialised content of the static table. -/
def emptyTenantEntry : TenantEntry :=
  { src_pfx := 0, pfx_len := 0, tenant_id := 0, vrf_id := 0, valid := false }

/-- Zero-initialised bucket of the static tenant_hash array. -/
def emptyTenantBucket : TenantBucket :=
  { entries := [emptyTenantEntry, emptyTenantEntry, emptyTenantEntry,
                emptyTenantEntry] }

/-- Prefix test of tenant_lookup_fast: the masked source address equals
the masked entry prefix, with the mask built exactly as in the C. -/
def tenant_entry_match (e : TenantEntry) (src : Nat) : Bool :=
  (src &&& u32_high_mask e.pfx_len) == (e.src_pfx &&& u32_high_mask e.pfx_len)

/-- Scan of the four bucket entries in slot order: the first valid entry
whose prefix test passes wins. -/
def tenant_bucket_scan (entries : List TenantEntry) (src : Nat) : Nat × Nat :=
  match entries with
  | [] => (0, 0)
  | e :: rest =>
    if e.valid && tenant_entry_match e src then (e.tenant_id, e.vrf_id)
    else tenant_bucket_scan rest src

/-- Tenant lookup (tenant_lookup_fast): hash the full 32-bit source
address, mask to the 65536 buckets, and scan the four entries of that one
bucket; the default tenant 0 (and vrf 0) is returned when nothing in the
bucket matches.  Returns the pair the C function delivers through its
return value and the vrf_id out parameter. -/
def tenant_lookup_fast (tbl : Nat → TenantBucket) (src : Nat) : Nat × Nat :=
  let h := clib_xxhash src &&& (65536 - 1)
  tenant_bucket_scan (tbl h).entries src

/-- Install a tenant mapping (the table write of opensase_tenant_add_fn):
the entry goes into the first invalid slot of the bucket selected by
hashing the prefix address; none models the bucket-full error return. -/
def opensase_tenant_add (tbl : Nat → TenantBucket) (pfx len tenant_id
    vrf_id : Nat) : Option (Nat → TenantBucket) :=
  let h := clib_xxhash pfx &&& (65536 - 1)
  let bucket := tbl h
  let rec place (es : List TenantEntry) : Option (List TenantEntry) :=
    match es with
    | [] => none
    | e :: rest =>
      if !e.valid then
        some ({ src_pfx := pfx, pfx_len := len, tenant_id := tenant_id,
                vrf_id := vrf_id, valid := true } :: rest)
      else
        match place rest with
        | some rest2 => some (e :: rest2)
        | none => none
  match place bucket.entries with
  | some es => some (fun i => if i == h then { entries := es } else tbl i)
  | none => none

/-- Modelled from the spec for comparison with the code: a longest-prefix
match of the source address against the list of installed mappings (each
given as prefix value, prefix length up to 32, tenant, vrf), returning the
tenant and vrf of the longest matching prefix and the default tenant 0
when none matches.  Ties go to the earlier installation. -/
def spec_lpm (installed : List (Nat × Nat × Nat × Nat)) (src : Nat) :
    Nat × Nat :=
  let matching := installed.filter (fun m =>
    src >>> (32 - m.2.1) == m.1 >>> (32 - m.2.1))
  match matching.foldl (fun best m =>
      match best with
      | none => some m
      | some b => if m.2.1 > b.2.1 then some m else some b) none with
  | some m => (m.2.2.1, m.2.2.2)
  | none => (0, 0)

/-! ## QoS marker and shaper (node_qos.c) -/

/-- QoS classes from opensase.h (opensase_qos_class_t). -/
def OPENSASE_QOS_REALTIME : Nat := 0
def OPENSASE_QOS_BUSINESS_CRITICAL : Nat := 1
def OPENSASE_QOS_DEFAULT : Nat := 2
def OPENSASE_QOS_BULK : Nat := 3
def OPENSASE_QOS_SCAVENGER : Nat := 4
def OPENSASE_QOS_N_CLASSES : Nat := 5

/-- DSCP table of node_qos.c (qos_to_dscp). -/
def qos_to_dscp (c : Nat) : Nat :=
  if c == OPENSASE_QOS_REALTIME then 46
  else if c == OPENSASE_QOS_BUSINESS_CRITICAL then 26
  else if c == OPENSASE_QOS_DEFAULT then 0
  else if c == OPENSASE_QOS_BULK then 10
  else if c == OPENSASE_QOS_SCAVENGER then 8
  else 0

/-- Full IPv4 header as the QoS node sees it; 16-bit on-wire words are kept
as separate fields. -/
structure Ip4Full where
  ver_ihl : Nat
  tos : Nat
  total_length : Nat
  ident : Nat
  flags_frag : Nat
  ttl : Nat
  protocol : Nat
  checksum : Nat
  src_address : Nat
  dst_address : Nat
  deriving DecidableEq, Repr

/-- Fold a checksum accumulator into 16 bits (two carry folds suffice for
the sums that occur in a 20-byte header). -/
def csum_fold (s : Nat) : Nat :=
  let s := (s &&& 65535) + (s >>> 16)
  let s := (s &&& 65535) + (s >>> 16)
  s

/-- IPv4 header checksum over the ten 16-bit words of the 20-byte header
with the checksum field taken as zero (the value VPP computes in
ip4_header_checksum / ip4_header_checksum_inline): the ones-complement of
the folded word sum. -/
def ip4_header_checksum (h : Ip4Full) : Nat :=
  let words : List Nat :=
    [(h.ver_ihl <<< 8) + h.tos, h.total_length, h.ident, h.flags_frag,
     (h.ttl <<< 8) + h.protocol, h.src_address >>> 16,
     h.src_address &&& 65535, h.dst_address >>> 16, h.dst_address &&& 65535]
  65535 - csum_fold (words.foldl (· + ·) 0)

/-- DSCP marking (apply_dscp): the class DSCP enters the upper six bits of
the ToS byte, the two ECN bits are kept, and, when the ToS changes, the
checksum field is assigned the checksum computed over the header BEFORE
the new ToS is stored -- the statement order of the C body. -/
def apply_dscp (h : Ip4Full) (qos_class : Nat) : Ip4Full :=
  let dscp := if qos_class < OPENSASE_QOS_N_CLASSES then qos_to_dscp qos_class
    else 0
  let old_tos := h.tos
  let new_tos := (dscp <<< 2) ||| (old_tos &&& 3)
  if old_tos != new_tos then
    let h1 := { h with checksum := ip4_header_checksum h }
    { h1 with tos := new_tos }
  else h

/-- Token bucket (token_bucket_t) with f64 fields as exact rationals. -/
structure TokenBucket where
  tokens : Rat
  last_update : Rat
  rate_bps : Rat
  burst_bytes : Rat
  deriving DecidableEq, Repr

/-- Token-bucket admission (rate_limit_check): refill by elapsed time
times the rate, saturate at burst_bytes, stamp last_update, then admit and
debit when the tokens cover the packet.  Returns the updated bucket and
the admit flag. -/
def rate_limit_check (tb : TokenBucket) (packet_bytes : Nat) (now : Rat) :
    TokenBucket × Bool :=
  let tb :=
    if tb.last_update > 0 then
      let t := tb.tokens + (now - tb.last_update) * tb.rate_bps
      { tb with tokens := if t > tb.burst_bytes then tb.burst_bytes else t }
    else tb
  let tb := { tb with last_update := now }
  if tb.tokens ≥ mkRat packet_bytes 1 then
    ({ tb with tokens := tb.tokens - mkRat packet_bytes 1 }, true)
  else
    (tb, false)

/-- Per-packet metadata fields the QoS node reads and writes
(opensase_buffer_opaque_t). -/
structure QosMeta where
  tenant_id : Nat
  qos_class : Nat
  flags : Nat
  deriving DecidableEq, Repr

/-- OPENSASE_FLAG_RATE_LIMITED from opensase.h. -/
def OPENSASE_FLAG_RATE_LIMITED : Nat := 8

/-- Buffer entering the QoS node: header, metadata, chain length. -/
structure QosPacket where
  ip : Ip4Full
  meta : QosMeta
  len : Nat
  deriving DecidableEq, Repr

/-- Next-node identifiers of the QoS node. -/
inductive QosNext where
  | ip4Lookup
  | wireguard
  | drop
  deriving DecidableEq, Repr

/-- Shaper state of the QoS node: the static per-tenant-per-class limiter
array (indexed by tenant modulo 1024 and class) together with the worker
drop counter the node bumps. -/
structure QosState where
  limiters : Nat → Nat → TokenBucket
  packets_dropped : Nat

/-- Scavenger rate-limit block of the quad loop, applied to one packet:
with a configured limiter (rate_bps > 0) the bucket is consulted, and a
refusal turns the next node into drop and sets the rate_limited flag.  The
C short-circuit skips rate_limit_check entirely when rate_bps is 0. -/
def qos_rate_limit_block (st : QosState) (p : QosPacket) (now : Rat) :
    QosState × QosPacket × QosNext :=
  if p.meta.qos_class == OPENSASE_QOS_SCAVENGER then
    let tidx := p.meta.tenant_id % 1024
    let tb := st.limiters tidx OPENSASE_QOS_SCAVENGER
    if tb.rate_bps > 0 then
      let r := rate_limit_check tb p.len now
      let lims := fun i c =>
        if i == tidx && c == OPENSASE_QOS_SCAVENGER then r.1
        else st.limiters i c
      let st := { st with limiters := lims }
      if !r.2 then
        ({ st with packets_dropped := st.packets_dropped + 1 },
         { p with meta := { p.meta with
             flags := p.meta.flags ||| OPENSASE_FLAG_RATE_LIMITED } },
         QosNext.drop)
      else (st, p, QosNext.ip4Lookup)
    else (st, p, QosNext.ip4Lookup)
  else (st, p, QosNext.ip4Lookup)

/-- Batch body of opensase_qos_node.  While at least four packets remain,
a quad is processed: all four are DSCP-marked and default to ip4-lookup,
but the scavenger token-bucket consultation is performed only for the
first packet of the quad (the C body ends that block with the comment
that the other packets are handled the same way, simplified, and contains
no such code).  The remaining packets are DSCP-marked and sent to
ip4-lookup with no rate limiting at all. -/
def opensase_qos_node (pkts : List QosPacket) (st : QosState) (now : Rat) :
    List (QosPacket × QosNext) × QosState :=
  match pkts with
  | p0 :: p1 :: p2 :: p3 :: rest =>
    let p0 := { p0 with ip := apply_dscp p0.ip p0.meta.qos_class }
    let p1 := { p1 with ip := apply_dscp p1.ip p1.meta.qos_class }
    let p2 := { p2 with ip := apply_dscp p2.ip p2.meta.qos_class }
    let p3 := { p3 with ip := apply_dscp p3.ip p3.meta.qos_class }
    let r0 := qos_rate_limit_block st p0 now
    let rrest := opensase_qos_node rest r0.1 now
    ((r0.2.1, r0.2.2) :: (p1, QosNext.ip4Lookup) :: (p2, QosNext.ip4Lookup) ::
      (p3, QosNext.ip4Lookup) :: rrest.1, rrest.2)
  | pkts =>
    (pkts.map (fun p =>
      ({ p with ip := apply_dscp p.ip p.meta.qos_class }, QosNext.ip4Lookup)),
     st)

/-! ## IPS fall-back scanner (node_security_inspect.c) -/

/-- IPS actions (ips_action_t). -/
def IPS_ACTION_ALERT : Nat := 0
def IPS_ACTION_DROP : Nat := 1
def IPS_ACTION_REJECT : Nat := 2

/-- IPS categories (ips_category_t). -/
def IPS_CAT_MALWARE : Nat := 0
def IPS_CAT_EXPLOIT : Nat := 1
def IPS_CAT_BOTNET : Nat := 2
def IPS_CAT_CVE : Nat := 3
def IPS_CAT_POLICY : Nat := 4

/-- Match result (ips_match_result_t). -/
structure IpsMatchResult where
  signature_id : Nat
  action : Nat
  category : Nat
  matched : Bool
  deriving DecidableEq, Repr

/-- Check of the Log4j branch of simple_pattern_scan at offset i: the
bytes dollar, opening brace, then j or J. -/
def log4j_check (data : List Nat) (i : Nat) : Bool :=
  data.getD i 0 == 36 && data.getD (i + 1) 0 == 123 &&
    (data.getD (i + 2) 0 == 106 || data.getD (i + 2) 0 == 74)

/-- Check of the SQL branch of simple_pattern_scan at offset i: the five
bytes of UNION in either case. -/
def union_check (data : List Nat) (i : Nat) : Bool :=
  (data.getD i 0 == 85 || data.getD i 0 == 117) &&
  (data.getD (i + 1) 0 == 78 || data.getD (i + 1) 0 == 110) &&
  (data.getD (i + 2) 0 == 73 || data.getD (i + 2) 0 == 105) &&
  (data.getD (i + 3) 0 == 79 || data.getD (i + 3) 0 == 111) &&
  (data.getD (i + 4) 0 == 78 || data.getD (i + 4) 0 == 110)

/-- Fall-back scanner (simple_pattern_scan).  The first loop runs only
when the length is at least 10 and visits offsets strictly below
length - 10; a hit writes signature 4001, category cve, action drop and
returns.  The second loop runs only when the length is at least 6 and
visits offsets strictly below length - 6; a hit writes signature 2003,
category exploit, action drop.  Each loop body writes one fixed result and
returns, so the first hit offset determines the outcome. -/
def simple_pattern_scan (data : List Nat) (r : IpsMatchResult) :
    IpsMatchResult :=
  if data.length ≥ 10 &&
      (List.range (data.length - 10)).any (log4j_check data) then
    { signature_id := 4001, action := IPS_ACTION_DROP,
      category := IPS_CAT_CVE, matched := true }
  else if data.length ≥ 6 &&
      (List.range (data.length - 6)).any (union_check data) then
    { signature_id := 2003, action := IPS_ACTION_DROP,
      category := IPS_CAT_EXPLOIT, matched := true }
  else r

/-- Scan entry (ips_scan_packet) restricted to its payload handling: the
result starts unmatched with action alert; empty or oversized payloads are
not scanned; the scan depth is 1500 bytes. -/
def ips_scan_payload (payload : List Nat) : IpsMatchResult :=
  let r0 : IpsMatchResult :=
    { signature_id := 0, action := IPS_ACTION_ALERT, category := 0,
      matched := false }
  if payload.length == 0 || payload.length > 65535 then r0
  else simple_pattern_scan (payload.take 1500) r0

/-- Modelled from the spec for comparison with the code: the seven ASCII
bytes of the Log4j marker (dollar, opening brace, j, n, d, i, colon) occur
at offset i of the scanned bytes. -/
def spec_log4j_at (data : List Nat) (i : Nat) : Bool :=
  data.getD i 0 == 36 && data.getD (i + 1) 0 == 123 &&
  data.getD (i + 2) 0 == 106 && data.getD (i + 3) 0 == 110 &&
  data.getD (i + 4) 0 == 100 && data.getD (i + 5) 0 == 105 &&
  data.getD (i + 6) 0 == 58 && i + 6 < data.length

/-- Modelled from the spec for comparison with the code: the five bytes of
UNION occur case-insensitively at offset i of the scanned bytes. -/
def spec_union_at (data : List Nat) (i : Nat) : Bool :=
  union_check data i && i + 4 < data.length

/-! ## Concrete inputs used by counterexamples and witnesses -/

/-- Concrete TCP flow header: 1 -> 2, protocol 6. -/
def ipT : Ip4Header := { src_address := 1, dst_address := 2, protocol := 6 }

/-- First packet of the concrete TCP flow (SYN flag byte). -/
def pktSyn : Packet :=
  { ip := ipT, src_port := 3, dst_port := 4, len := 60, tcp_flags := 2 }

/-- Later packet of the same concrete TCP flow carrying the FIN flag. -/
def pktFin : Packet :=
  { ip := ipT, src_port := 3, dst_port := 4, len := 40, tcp_flags := 1 }

/-- Empty worker with a one-slot session vector. -/
def workerOne : Worker :=
  { sessions := [zeroSession], n_sessions := 0, session_hash := [],
    sessions_created := 0, packets_processed := 0 }

/-- Worker with zero-capacity session vector (table full from the start). -/
def workerFull : Worker :=
  { sessions := [], n_sessions := 0, session_hash := [],
    sessions_created := 0, packets_processed := 0 }

/-- Session record of the concrete TCP flow as created by the tracker. -/
def sessionT : Session :=
  { zeroSession with
    src_addr := 1, dst_addr := 2, src_port := 3,
    dst_port := 4, protocol := 6, state := OPENSASE_SESSION_NEW }

/-- Worker already tracking the concrete TCP flow at index 0. -/
def workerT : Worker :=
  { sessions := [sessionT], n_sessions := 1,
    session_hash := [(opensase_session_hash ipT 3 4, 0)],
    sessions_created := 1, packets_processed := 1 }

/-- First 5-tuple of the concrete colliding pair: (1, 0, 3, 4, TCP). -/
def pktColA : Packet :=
  { ip := { src_address := 1, dst_address := 0, protocol := 6 },
    src_port := 3, dst_port := 4, len := 60, tcp_flags := 0 }

/-- Second 5-tuple of the concrete colliding pair: (1, 23, 3, 4, UDP).
Both tuples XOR their two 64-bit key lanes to the same value, so they
share the session hash and the NAT hash. -/
def pktColB : Packet :=
  { ip := { src_address := 1, dst_address := 23, protocol := 17 },
    src_port := 3, dst_port := 4, len := 80, tcp_flags := 0 }

/-- Worker tracking the first tuple of the colliding pair at index 0. -/
def workerCol : Worker :=
  { sessions := [{ zeroSession with
      src_addr := 1, dst_addr := 0,
      src_port := 3, dst_port := 4, protocol := 6 }],
    n_sessions := 1,
    session_hash := [(opensase_session_hash
      { src_address := 1, dst_address := 0, protocol := 6 } 3 4, 0)],
    sessions_created := 1, packets_processed := 1 }

/-- NAT packet of the first colliding tuple. -/
def natPktColA : NatPacket :=
  { src_address := 1, dst_address := 0, protocol := 6, src_port := 3,
    dst_port := 4 }

/-- NAT packet of the second colliding tuple. -/
def natPktColB : NatPacket :=
  { src_address := 1, dst_address := 23, protocol := 17, src_port := 3,
    dst_port := 4 }

/-- NAT mapping installed for the first colliding tuple: external address
9, external port 10000. -/
def natMapCol : NatMapping :=
  { internal_addr := 1, external_addr := 9, internal_port := 3,
    external_port := 10000, protocol := 6, tenant_id := 0,
    expire_time := 300 }

/-- Single-port NAT pool 10000..10000 on external address 9, cursor at
10000. -/
def natPoolOne : NatPool :=
  { external_addr := 9, port_start := 10000, port_end := 10000,
    next_port := 10000 }

/-- Unconfigured NAT pool (external address 0). -/
def natPoolZero : NatPool :=
  { external_addr := 0, port_start := 10000, port_end := 65000,
    next_port := 10000 }

/-- NAT worker holding the mapping for the first colliding tuple, with the
single-port pool as pool 0: the pool is fully allocated by an unexpired
mapping. -/
def natWorkerCol : NatWorker :=
  { mappings := [natMapCol],
    mapping_hash := [(nat_hash_key 1 0 3 4 6, 0)],
    n_mappings := 1,
    tenant_pools := fun i => if i == 0 then natPoolOne else natPoolZero }

/-- Fresh NAT packet that misses the mapping table: (7, 8, 30, 40, UDP). -/
def natPktMiss : NatPacket :=
  { src_address := 7, dst_address := 8, protocol := 17, src_port := 30,
    dst_port := 40 }

/-- Empty tenant table: every bucket holds four invalid entries. -/
def tenantTbl0 : Nat → TenantBucket := fun _ => emptyTenantBucket

/-- Address value of 10.0.0.0. -/
def addrA : Nat := 167772160

/-- Tenant table after installing 10.0.0.0/8 as tenant 1 and then
10.0.0.0/32 as tenant 2; both land in the bucket of the hash of
10.0.0.0. -/
def tenantTblAB : Nat → TenantBucket :=
  (opensase_tenant_add
    ((opensase_tenant_add tenantTbl0 addrA 8 1 0).getD tenantTbl0)
    addrA 32 2 0).getD tenantTbl0

/-- Payload of exactly ten bytes starting with the Log4j marker: the
ASCII bytes of the dollar-brace-jndi-colon prefix followed by abc. -/
def c8payload : List Nat := [36, 123, 106, 110, 100, 105, 58, 97, 98, 99]

/-- Payload xxUNIONxxxxx of length twelve: UNION at offset 2. -/
def c8unionPayload : List Nat :=
  [120, 120, 85, 78, 73, 79, 78, 120, 120, 120, 120, 120]

/-- Scavenger token bucket with a configured rate (100 Mbps as 12500000
bytes per second), zero tokens, and last_update still 0 as
init_rate_limiter leaves it. -/
def tbEmpty : TokenBucket :=
  { tokens := 0, last_update := 0, rate_bps := 12500000,
    burst_bytes := 1250000 }

/-- Concrete IPv4 header with a zero ToS byte. -/
def hdrC6base : Ip4Full :=
  { ver_ihl := 69, tos := 0, total_length := 100, ident := 7,
    flags_frag := 0, ttl := 64, protocol := 6, checksum := 0,
    src_address := 1, dst_address := 2 }

/-- The concrete header with its checksum field holding the correct
checksum of its own fields. -/
def hdrC6 : Ip4Full :=
  { hdrC6base with checksum := ip4_header_checksum hdrC6base }

/-- QoS state whose every limiter is the configured empty bucket. -/
def qosStEmpty : QosState :=
  { limiters := fun _ _ => tbEmpty, packets_dropped := 0 }

/-- Scavenger-class packet of 100 bytes for tenant 5. -/
def qosPktScav : QosPacket :=
  { ip := hdrC6, meta := { tenant_id := 5, qos_class := 4, flags := 0 },
    len := 100 }

/-- All-wildcard policy template used by the concrete policy vectors. -/
def polWildcard : Policy :=
  { policy_id := 0, priority := 0, tenant_id := 0, src_pfx := 0,
    dst_pfx := 0, src_pfx_len := 0, dst_pfx_len := 0, src_port_min := 0,
    src_port_max := 0, dst_port_min := 0, dst_port_max := 0, protocol := 0,
    action := 0, qos_class := 0 }

/-- Wildcard policy carrying the u32 ~0 sentinel as its priority. -/
def polSentinel : Policy :=
  { polWildcard with policy_id := 1, priority := 2 ^ 32 - 1 }

/-- Wildcard allow policy of priority 10. -/
def polTen : Policy := { polWildcard with policy_id := 2, priority := 10 }

/-- Wildcard allow policy of priority 5 placed after polTen. -/
def polBest : Policy := { polWildcard with policy_id := 3, priority := 5 }

/-- Wildcard policy of action allow (explicit) and priority 7. -/
def polAllow : Policy :=
  { polWildcard with
    policy_id := 4, priority := 7, action := OPENSASE_ACTION_ALLOW }

/-! ## Helper lemmas -/

theorem u32_high_mask_eq (len : Nat) (hlen : len ≤ 32) :
    u32_high_mask len = 2 ^ 32 - 2 ^ (32 - len) := by
  unfold u32_high_mask
  set s := 32 - len with hs
  have hsle : s ≤ 32 := by omega
  have hk1 : (1 : Nat) ≤ 2 ^ s := Nat.one_le_two_pow
  have hkK : (2 : Nat) ^ s ≤ 2 ^ 32 := Nat.pow_le_pow_right (by norm_num) hsle
  rw [Nat.shiftLeft_eq]
  have h1 : (2 ^ 32 - 1) * 2 ^ s = 2 ^ 32 * 2 ^ s - 2 ^ s := by
    rw [Nat.sub_mul, one_mul]
  have hle1 : 2 ^ s ≤ 2 ^ 32 * 2 ^ s := Nat.le_mul_of_pos_left _ (by positivity)
  have hle2 : 2 ^ 32 ≤ 2 ^ 32 * 2 ^ s := Nat.le_mul_of_pos_right _ (by omega)
  have h2 : 2 ^ 32 * 2 ^ s - 2 ^ s = (2 ^ 32 - 2 ^ s) + (2 ^ s - 1) * 2 ^ 32 := by
    rw [Nat.sub_mul, one_mul, Nat.mul_comm]
    omega
  rw [h1, h2, Nat.add_mul_mod_self_right]
  exact Nat.mod_eq_of_lt (by omega)

theorem and_high_mask (s x : Nat) (hs : s ≤ 32) (hx : x < 2 ^ 32) :
    x &&& (2 ^ 32 - 2 ^ s) = (x >>> s) <<< s := by
  have hmask : (2 : Nat) ^ 32 - 2 ^ s = (2 ^ (32 - s) - 1) <<< s := by
    rw [Nat.shiftLeft_eq, Nat.sub_mul, one_mul, ← Nat.pow_add]
    congr 2
    omega
  rw [hmask]
  apply Nat.eq_of_testBit_eq
  intro i
  rw [Nat.testBit_and, Nat.testBit_shiftLeft, Nat.testBit_shiftLeft,
    Nat.testBit_shiftRight, Nat.testBit_two_pow_sub_one]
  by_cases hsi : s ≤ i
  · by_cases hi32 : i < 32
    · simp [hsi, Nat.add_sub_cancel' hsi, show i - s < 32 - s by omega]
    · have hxi : x.testBit i = false :=
        Nat.testBit_lt_two_pow (lt_of_lt_of_le hx
          (Nat.pow_le_pow_right (by norm_num) (by omega)))
      have hxi2 : x.testBit (s + (i - s)) = false := by
        rwa [Nat.add_sub_cancel' hsi]
      simp [hsi, hxi, hxi2]
  · simp [hsi]

theorem high_mask_match_iff (len x y : Nat) (hlen : len ≤ 32)
    (hx : x < 2 ^ 32) (hy : y < 2 ^ 32) :
    (x &&& u32_high_mask len = y &&& u32_high_mask len) ↔
      x >>> (32 - len) = y >>> (32 - len) := by
  rw [u32_high_mask_eq len hlen, and_high_mask _ _ (by omega) hx,
    and_high_mask _ _ (by omega) hy]
  constructor
  · intro h
    have := congrArg (fun t => t >>> (32 - len)) h
    simpa [Nat.shiftLeft_shiftRight] using this
  · intro h
    rw [h]

theorem hash_get_hash_set_preserve (h : List (Nat × Nat)) (k v k2 v2 : Nat)
    (hk : hash_get h k = none) (h2 : hash_get h k2 = some v2) :
    hash_get (hash_set h k v) k2 = some v2 := by
  unfold hash_get at hk h2 ⊢
  unfold hash_set
  cases hf : h.find? (fun kv => kv.1 == k) with
  | some kv => rw [hf] at hk; exact absurd hk (by simp)
  | none =>
    simp only [Option.isSome_none, Bool.false_eq_true, if_false,
      List.find?_append]
    cases hf2 : h.find? (fun kv => kv.1 == k2) with
    | none => rw [hf2] at h2; exact absurd h2 (by simp)
    | some kv2 => rw [hf2] at h2; simpa using h2

theorem security_step_found (w : Worker) (p : Packet) (now : Rat) (idx : Nat)
    (hg : hash_get w.session_hash
      (opensase_session_hash p.ip (packet_ports p).1 (packet_ports p).2) =
      some idx) :
    opensase_security_step w p now =
      ({ w with sessions := w.sessions.modify (fun s =>
          { s with packets_fwd := s.packets_fwd + 1,
                   bytes_fwd := s.bytes_fwd + p.len,
                   last_active := now }) idx },
        idx, SecurityNext.policy) := by
  simp only [opensase_security_step, opensase_session_lookup_or_create, hg]

theorem security_step_full (w : Worker) (p : Packet) (now : Rat)
    (hg : hash_get w.session_hash
      (opensase_session_hash p.ip (packet_ports p).1 (packet_ports p).2) =
      none)
    (hfull : w.n_sessions ≥ w.sessions.length) :
    opensase_security_step w p now = (w, 2 ^ 32 - 1, SecurityNext.drop) := by
  simp only [opensase_security_step, opensase_session_lookup_or_create, hg,
    if_pos hfull]

theorem security_step_create (w : Worker) (p : Packet) (now : Rat)
    (hg : hash_get w.session_hash
      (opensase_session_hash p.ip (packet_ports p).1 (packet_ports p).2) =
      none)
    (hroom : ¬ w.n_sessions ≥ w.sessions.length) :
    opensase_security_step w p now =
      ({ w with
          sessions := (w.sessions.set w.n_sessions
            { src_addr := p.ip.src_address, dst_addr := p.ip.dst_address,
              src_port := (packet_ports p).1, dst_port := (packet_ports p).2,
              protocol := p.ip.protocol, state := OPENSASE_SESSION_NEW,
              packets_fwd := 0, bytes_fwd := 0, packets_rev := 0,
              bytes_rev := 0, last_active := now }).modify (fun s =>
                { s with packets_fwd := s.packets_fwd + 1,
                         bytes_fwd := s.bytes_fwd + p.len,
                         last_active := now }) w.n_sessions,
          n_sessions := w.n_sessions + 1,
          session_hash := hash_set w.session_hash
            (opensase_session_hash p.ip (packet_ports p).1 (packet_ports p).2)
            w.n_sessions,
          sessions_created := w.sessions_created + 1 },
        w.n_sessions, SecurityNext.policy) := by
  simp only [opensase_security_step, opensase_session_lookup_or_create, hg,
    if_neg hroom]

/-! ## Claim theorems -/

/-- C10: no data-path operation removes a session.  For every worker,
packet and time, one packet-processing step of the security node leaves
n_sessions no smaller, keeps the session vector length, keeps every
existing flow-hash table entry, and, once n_sessions has reached the
session vector capacity, a packet whose flow hash is not in the table is
sent to drop. -/
theorem c10_sessions_never_removed (w : Worker) (p : Packet) (now : Rat) :
    (opensase_security_step w p now).1.n_sessions ≥ w.n_sessions ∧
    (opensase_security_step w p now).1.sessions.length = w.sessions.length ∧
    (∀ k v, hash_get w.session_hash k = some v →
      hash_get (opensase_security_step w p now).1.session_hash k = some v) ∧
    (w.n_sessions ≥ w.sessions.length →
      hash_get w.session_hash
        (opensase_session_hash p.ip (packet_ports p).1 (packet_ports p).2) =
        none →
      (opensase_security_step w p now).2.2 = SecurityNext.drop) := by
  cases hg : hash_get w.session_hash
      (opensase_session_hash p.ip (packet_ports p).1 (packet_ports p).2) with
  | some idx =>
    rw [security_step_found w p now idx hg]
    refine ⟨le_refl _, ?_, ?_, ?_⟩
    · simp [List.length_modify]
    · intro k v hv; simpa using hv
    · intro _ hnone; exact absurd hnone (by simp)
  | none =>
    by_cases hfull : w.n_sessions ≥ w.sessions.length
    · rw [security_step_full w p now hg hfull]
      exact ⟨le_refl _, rfl, fun k v hv => hv, fun _ _ => rfl⟩
    · rw [security_step_create w p now hg hfull]
      refine ⟨by simp, ?_, ?_, ?_⟩
      · simp [List.length_modify]
      · intro k v hv
        exact hash_get_hash_set_preserve _ _ _ _ _ hg hv
      · intro hfull2 _; exact absurd hfull2 hfull

/-- C10 witness: a concrete worker at capacity (empty vector) drops the
packet of a new flow. -/
theorem c10_sessions_never_removed_witness :
    (opensase_security_step workerFull pktSyn 1).2.2 = SecurityNext.drop :=
  (c10_sessions_never_removed workerFull pktSyn 1).2.2.2 (by decide)
    (by decide)

/-- C2 counterexample: the claim that a TCP FIN observed on a session
moves it to closing fails.  A session is created by a first packet of a
TCP 5-tuple; a second packet of the same 5-tuple carrying the FIN flag is
processed on that session (its forward packet counter reaches 2), yet the
session state is still new, not closing. -/
theorem c2_counterexample :
    pktFin.tcp_flags &&& 1 = 1 ∧
    (((opensase_security_step (opensase_security_step workerOne pktSyn 1).1
        pktFin 2).1.sessions.getD 0 zeroSession).packets_fwd = 2 ∧
     ((opensase_security_step (opensase_security_step workerOne pktSyn 1).1
        pktFin 2).1.sessions.getD 0 zeroSession).state =
        OPENSASE_SESSION_NEW) ∧
    OPENSASE_SESSION_NEW ≠ OPENSASE_SESSION_CLOSING := by
  decide

/-- C2 (amended): every packet of a tracked session updates last_active
and the forward counters of that session, and leaves every other field --
in particular the state -- unchanged: the session tracker implements no
transition to established on reverse traffic and none to closing on TCP
FIN or RST. -/
theorem c2_update_without_state_transition (w : Worker) (p : Packet)
    (now : Rat) (idx : Nat)
    (hfound : hash_get w.session_hash
      (opensase_session_hash p.ip (packet_ports p).1 (packet_ports p).2) =
      some idx) :
    (opensase_security_step w p now).1.sessions[idx]? =
      (w.sessions[idx]?).map (fun s =>
        { s with packets_fwd := s.packets_fwd + 1,
                 bytes_fwd := s.bytes_fwd + p.len,
                 last_active := now }) ∧
    (opensase_security_step w p now).2.1 = idx ∧
    (opensase_security_step w p now).2.2 = SecurityNext.policy ∧
    (∀ s s0, w.sessions[idx]? = some s0 →
      (opensase_security_step w p now).1.sessions[idx]? = some s →
      s.state = s0.state) := by
  rw [security_step_found w p now idx hfound]
  refine ⟨?_, rfl, rfl, ?_⟩
  · simp [List.getElem?_modify_eq]
  · intro s s0 h0 h1
    simp only [List.getElem?_modify_eq, h0, Option.map] at h1
    cases h1
    rfl

/-- C2 witness: the amended statement at a concrete worker holding one
session for a concrete TCP 5-tuple, with the FIN packet of that flow. -/
theorem c2_update_without_state_transition_witness :
    (opensase_security_step workerT pktFin 2).2.2 = SecurityNext.policy :=
  (c2_update_without_state_transition workerT pktFin 2 0 (by decide)).2.2.1

/-- C9: the session tracker and the NAT table key their entries solely by
the 64-bit 5-tuple hash and never compare the stored tuple on lookup.  For
any two distinct 5-tuples with equal hashes, when the first flow has an
entry, processing a packet of the second flow returns the first flow's
entry: the security step hands back the first flow's session index and
accumulates its counters into that record, and the NAT step takes the
translation from the first flow's mapping while creating nothing new. -/
theorem c9_hash_collision_aliasing (w : Worker) (p q : Packet) (now : Rat)
    (i : Nat) (nw : NatWorker) (np nq : NatPacket) (tid : Nat) (nnow : Rat)
    (j : Nat)
    (_hdistinct : (p.ip, packet_ports p) ≠ (q.ip, packet_ports q))
    (hcol : opensase_session_hash p.ip (packet_ports p).1 (packet_ports p).2 =
      opensase_session_hash q.ip (packet_ports q).1 (packet_ports q).2)
    (hfound : hash_get w.session_hash
      (opensase_session_hash p.ip (packet_ports p).1 (packet_ports p).2) =
      some i)
    (_hndistinct : np ≠ nq)
    (hncol : nat_hash_key np.src_address np.dst_address np.src_port
        np.dst_port np.protocol =
      nat_hash_key nq.src_address nq.dst_address nq.src_port nq.dst_port
        nq.protocol)
    (hnfound : hash_get nw.mapping_hash
      (nat_hash_key np.src_address np.dst_address np.src_port np.dst_port
        np.protocol) = some j) :
    (opensase_security_step w q now).2.1 = i ∧
    (opensase_security_step w q now).1.n_sessions = w.n_sessions ∧
    (opensase_security_step w q now).1.sessions[i]? =
      (w.sessions[i]?).map (fun s =>
        { s with packets_fwd := s.packets_fwd + 1,
                 bytes_fwd := s.bytes_fwd + q.len,
                 last_active := now }) ∧
    (opensase_nat_step nw nq tid nnow).2.1 =
      nat_translate nq (nw.mappings.getD j zeroNatMapping) ∧
    (opensase_nat_step nw nq tid nnow).1 = nw := by
  have hfq : hash_get w.session_hash
      (opensase_session_hash q.ip (packet_ports q).1 (packet_ports q).2) =
      some i := by rw [← hcol]; exact hfound
  have hnq : hash_get nw.mapping_hash
      (nat_hash_key nq.src_address nq.dst_address nq.src_port nq.dst_port
        nq.protocol) = some j := by rw [← hncol]; exact hnfound
  rw [security_step_found w q now i hfq]
  refine ⟨rfl, rfl, ?_, ?_, ?_⟩
  · simp [List.getElem?_modify_eq]
  · simp only [opensase_nat_step, nat_lookup, hnq]
  · simp only [opensase_nat_step, nat_lookup, hnq]

/-- C9 witness: the concrete colliding pair (1, 0, 3, 4, TCP) and
(1, 23, 3, 4, UDP), whose XORed key lanes agree; the second flow is served
the first flow's session index and NAT mapping. -/
theorem c9_hash_collision_aliasing_witness :
    (opensase_security_step workerCol pktColB 2).2.1 = 0 ∧
    (opensase_nat_step natWorkerCol natPktColB 0 100).2.1 =
      nat_translate natPktColB (natWorkerCol.mappings.getD 0 zeroNatMapping) :=
  ⟨(c9_hash_collision_aliasing workerCol pktColA pktColB 2 0 natWorkerCol
      natPktColA natPktColB 0 100 0 (by decide) (by decide) (by decide)
      (by decide) (by decide) (by decide)).1,
   (c9_hash_collision_aliasing workerCol pktColA pktColB 2 0 natWorkerCol
      natPktColA natPktColB 0 100 0 (by decide) (by decide) (by decide)
      (by decide) (by decide) (by decide)).2.2.2.1⟩

/-- C1 counterexample: the claim that on a wrap a port is reused only when
the previous mapping using it has expired, and that a fully allocated pool
yields NoPortAvailable and a drop, fails.  The single-port pool
10000..10000 is fully allocated by a mapping whose expire_time 300 lies in
the future of now = 100, yet a mapping-table miss is still given port
10000 and the packet continues to the encrypt node instead of being
dropped. -/
theorem c1_counterexample :
    (opensase_nat_step natWorkerCol natPktMiss 0 100).2.2 =
      NatNext.encrypt ∧
    ((opensase_nat_step natWorkerCol natPktMiss 0 100).1.mappings.getD 1
        zeroNatMapping).external_port = 10000 ∧
    natMapCol.external_port = 10000 ∧
    ¬ ((100 : Rat) > natMapCol.expire_time) ∧
    (natWorkerCol.tenant_pools 0).port_start = 10000 ∧
    (natWorkerCol.tenant_pools 0).port_end = 10000 ∧
    natWorkerCol.n_mappings = 1 := by
  decide

/-- C1 (amended): on a mapping-table miss the NAT stage assigns
nat_port = pool.next_port of the selected pool (the clamped tenant pool,
or pool 0 when that pool has no external address) and advances next_port
with wrap-around to port_start past port_end; the port is taken
unconditionally -- no expiry condition is consulted, no NoPortAvailable
failure exists, and the packet always receives a mapping and continues to
the encrypt node. -/
theorem c1_port_assignment_no_failure (w : NatWorker) (p : NatPacket)
    (tid : Nat) (now : Rat)
    (hmiss : nat_lookup w p.src_address p.dst_address p.src_port p.dst_port
      p.protocol = none) :
    (opensase_nat_step w p tid now).2.2 = NatNext.encrypt ∧
    ((opensase_nat_step w p tid now).1.mappings.getD w.mappings.length
        zeroNatMapping).external_port =
      (w.tenant_pools (natSelectedPool w tid)).next_port ∧
    (opensase_nat_step w p tid now).1.n_mappings = w.n_mappings + 1 ∧
    ((opensase_nat_step w p tid now).1.tenant_pools
        (natSelectedPool w tid)).next_port =
      natAdvancedCursor (w.tenant_pools (natSelectedPool w tid)) := by
  simp only [opensase_nat_step, hmiss, nat_create_mapping, natSelectedPool,
    natAdvancedCursor]
  refine ⟨by trivial, ?_, by trivial, ?_⟩
  · simp [List.getElem?_concat_length]
  · simp

theorem policy_matches_eq_spec (p : Policy) (ip : Ip4Header)
    (sp dp tid : Nat) (hsrc : ip.src_address < 2 ^ 32)
    (hdst : ip.dst_address < 2 ^ 32) (hps : p.src_pfx < 2 ^ 32)
    (hpd : p.dst_pfx < 2 ^ 32) (hls : p.src_pfx_len ≤ 32)
    (hld : p.dst_pfx_len ≤ 32) :
    policy_matches p ip sp dp tid = spec_policy_matches p ip sp dp tid := by
  have hsp : ((ip.src_address &&& u32_high_mask p.src_pfx_len) ==
        (p.src_pfx &&& u32_high_mask p.src_pfx_len)) =
      (ip.src_address >>> (32 - p.src_pfx_len) ==
        p.src_pfx >>> (32 - p.src_pfx_len)) := by
    rw [Bool.eq_iff_iff, beq_iff_eq, beq_iff_eq]
    exact high_mask_match_iff _ _ _ hls hsrc hps
  have hdp : ((ip.dst_address &&& u32_high_mask p.dst_pfx_len) ==
        (p.dst_pfx &&& u32_high_mask p.dst_pfx_len)) =
      (ip.dst_address >>> (32 - p.dst_pfx_len) ==
        p.dst_pfx >>> (32 - p.dst_pfx_len)) := by
    rw [Bool.eq_iff_iff, beq_iff_eq, beq_iff_eq]
    exact high_mask_match_iff _ _ _ hld hdst hpd
  have hprt1 : (!(p.src_port_min != 0 || p.src_port_max != 0)) =
      (p.src_port_min == 0 && p.src_port_max == 0) := by
    simp [Bool.not_or, bne]
  have hprt2 : (!(p.dst_port_min != 0 || p.dst_port_max != 0)) =
      (p.dst_port_min == 0 && p.dst_port_max == 0) := by
    simp [Bool.not_or, bne]
  unfold policy_matches spec_policy_matches
  rw [hsp, hdp, hprt1, hprt2]

theorem policy_match_loop_eq (l : List (Nat × Policy)) (ip : Ip4Header)
    (sp dp tid : Nat) (bm bp : Nat)
    (hin : ∀ x ∈ l, policy_in_use x.2 = true)
    (hmeq : ∀ x ∈ l, policy_matches x.2 ip sp dp tid =
      spec_policy_matches x.2 ip sp dp tid) :
    policy_match_loop l ip sp dp tid bm bp =
      (match spec_select l ip sp dp tid with
       | none => bm
       | some (j, q) => if q < bp then j else bm) := by
  induction l generalizing bm bp with
  | nil => simp [policy_match_loop, spec_select]
  | cons x rest ih =>
    obtain ⟨i, p⟩ := x
    have hinp : policy_in_use p = true := hin (i, p) (by simp)
    have hmp : policy_matches p ip sp dp tid =
        spec_policy_matches p ip sp dp tid := hmeq (i, p) (by simp)
    have hin2 : ∀ x ∈ rest, policy_in_use x.2 = true :=
      fun x hx => hin x (by simp [hx])
    have hmeq2 : ∀ x ∈ rest, policy_matches x.2 ip sp dp tid =
        spec_policy_matches x.2 ip sp dp tid :=
      fun x hx => hmeq x (by simp [hx])
    by_cases hm : spec_policy_matches p ip sp dp tid = true
    · by_cases hlt : p.priority < bp
      · rw [show policy_match_loop ((i, p) :: rest) ip sp dp tid bm bp =
              policy_match_loop rest ip sp dp tid i p.priority by
            simp [policy_match_loop, hinp, hmp, hm, hlt]]
        rw [ih i p.priority hin2 hmeq2]
        cases hr : spec_select rest ip sp dp tid with
        | none => simp [spec_select, hm, hr, hlt]
        | some jq =>
          obtain ⟨j, q⟩ := jq
          by_cases hpq : p.priority ≤ q
          · simp only [spec_select, hm, hr]
            simp only [Bool.not_true, Bool.false_eq_true, if_false]
            rw [if_pos hpq]
            simp only [if_neg (by omega : ¬ q < p.priority), if_pos hlt]
          · simp only [spec_select, hm, hr]
            simp only [Bool.not_true, Bool.false_eq_true, if_false]
            rw [if_neg hpq]
            simp only [if_pos (by omega : q < p.priority),
              if_pos (by omega : q < bp)]
      · rw [show policy_match_loop ((i, p) :: rest) ip sp dp tid bm bp =
              policy_match_loop rest ip sp dp tid bm bp by
            simp [policy_match_loop, hinp, hmp, hm, hlt]]
        rw [ih bm bp hin2 hmeq2]
        cases hr : spec_select rest ip sp dp tid with
        | none => simp [spec_select, hm, hr, hlt]
        | some jq =>
          obtain ⟨j, q⟩ := jq
          by_cases hpq : p.priority ≤ q
          · simp only [spec_select, hm, hr]
            simp only [Bool.not_true, Bool.false_eq_true, if_false]
            rw [if_pos hpq]
            simp only [if_neg (by omega : ¬ p.priority < bp),
              if_neg (by omega : ¬ q < bp)]
          · simp only [spec_select, hm, hr]
            simp only [Bool.not_true, Bool.false_eq_true, if_false]
            rw [if_neg hpq]
    · rw [show policy_match_loop ((i, p) :: rest) ip sp dp tid bm bp =
            policy_match_loop rest ip sp dp tid bm bp by
          simp [policy_match_loop, hinp, hmp, hm]]
      rw [ih bm bp hin2 hmeq2]
      simp [spec_select, hm]

theorem spec_select_priority_sound (l : List (Nat × Policy))
    (ip : Ip4Header) (sp dp tid : Nat) (j q : Nat)
    (h : spec_select l ip sp dp tid = some (j, q)) :
    ∃ p, (j, p) ∈ l ∧ q = p.priority := by
  induction l generalizing j q with
  | nil => simp [spec_select] at h
  | cons x rest ih =>
    obtain ⟨i, p⟩ := x
    by_cases hm : spec_policy_matches p ip sp dp tid = true
    · simp only [spec_select, hm, Bool.not_true, Bool.false_eq_true,
        if_false] at h
      cases hr : spec_select rest ip sp dp tid with
      | none =>
        rw [hr] at h
        simp only [Option.some_inj, Prod.mk.injEq] at h
        exact ⟨p, by simp [h.1], h.2.symm⟩
      | some jq =>
        obtain ⟨j2, q2⟩ := jq
        rw [hr] at h
        have h2 : (if p.priority ≤ q2 then some (i, p.priority)
            else some (j2, q2)) = some (j, q) := h
        by_cases hpq : p.priority ≤ q2
        · rw [if_pos hpq] at h2
          simp only [Option.some_inj, Prod.mk.injEq] at h2
          exact ⟨p, by simp [h2.1], h2.2.symm⟩
        · rw [if_neg hpq] at h2
          simp only [Option.some_inj, Prod.mk.injEq] at h2
          obtain ⟨p2, hmem, hq2⟩ := ih j2 q2 hr
          exact ⟨p2, by simp [h2.1 ▸ hmem], h2.2 ▸ hq2⟩
    · rw [Bool.not_eq_true] at hm
      simp only [spec_select, hm, Bool.not_false, if_true] at h
      obtain ⟨p2, hmem, hq2⟩ := ih j q h
      exact ⟨p2, by simp [hmem], hq2⟩

/-- C4 counterexample: the claim that the matcher returns the first policy
of best priority among all matching policies fails at a matching policy of
priority 2^32 - 1.  The single wildcard policy matches every predicate and
is the first best-priority match, yet opensase_policy_match returns the ~0
no-match sentinel, so no policy is applied. -/
theorem c4_counterexample :
    spec_policy_matches polSentinel ipT 3 4 0 = true ∧
    spec_select [polSentinel].enum ipT 3 4 0 = some (0, 2 ^ 32 - 1) ∧
    policy_in_use polSentinel = true ∧
    opensase_policy_match [polSentinel] ipT 3 4 0 = 2 ^ 32 - 1 := by
  decide

/-- Bridge between the matcher and the spec-side selection, shared by the
policy-matcher and policy-routing developments. -/
theorem policy_match_spec (policies : List Policy)
    (ip : Ip4Header) (sp dp tid : Nat)
    (hsrc : ip.src_address < 2 ^ 32) (hdst : ip.dst_address < 2 ^ 32)
    (hpol : ∀ p ∈ policies, policy_in_use p = true ∧
      p.priority < 2 ^ 32 - 1 ∧ p.src_pfx < 2 ^ 32 ∧ p.dst_pfx < 2 ^ 32 ∧
      p.src_pfx_len ≤ 32 ∧ p.dst_pfx_len ≤ 32) :
    opensase_policy_match policies ip sp dp tid =
      (match spec_select policies.enum ip sp dp tid with
       | none => 2 ^ 32 - 1
       | some (j, _) => j) := by
  have hmem : ∀ x ∈ policies.enum, x.2 ∈ policies := by
    intro x hx
    exact List.getElem?_mem (List.mem_enum_iff_getElem?.mp hx)
  rw [opensase_policy_match, policy_match_loop_eq _ _ _ _ _ _ _
    (fun x hx => (hpol x.2 (hmem x hx)).1)
    (fun x hx => by
      obtain ⟨_, _, h3, h4, h5, h6⟩ := hpol x.2 (hmem x hx)
      exact policy_matches_eq_spec x.2 ip sp dp tid hsrc hdst h3 h4 h5 h6)]
  cases hr : spec_select policies.enum ip sp dp tid with
  | none => rfl
  | some jq =>
    obtain ⟨j, q⟩ := jq
    have hq : q < 2 ^ 32 - 1 := by
      have := spec_select_priority_sound policies.enum ip sp dp tid j q hr
      obtain ⟨p, hp, hq⟩ := this
      rw [hq]
      exact (hpol p (hmem _ hp)).2.1
    simp only [if_pos hq]

/-- C4 (amended): for every policy vector whose entries are in use
(policy_id or priority nonzero) and carry a priority below the u32 ~0
sentinel, and for 32-bit addresses and prefixes with lengths at most 32,
the matcher returns the index of the first policy of best (lowest numeric)
priority among all policies whose every predicate (tenant, source prefix,
destination prefix, protocol, source port range, destination port range)
matches, zero or empty predicates matching any value and ties broken by
position; when no policy matches it returns the no-policy sentinel
2^32 - 1. -/
theorem c4_first_best_priority_match (policies : List Policy)
    (ip : Ip4Header) (sp dp tid : Nat)
    (hsrc : ip.src_address < 2 ^ 32) (hdst : ip.dst_address < 2 ^ 32)
    (hpol : ∀ p ∈ policies, policy_in_use p = true ∧
      p.priority < 2 ^ 32 - 1 ∧ p.src_pfx < 2 ^ 32 ∧ p.dst_pfx < 2 ^ 32 ∧
      p.src_pfx_len ≤ 32 ∧ p.dst_pfx_len ≤ 32) :
    opensase_policy_match policies ip sp dp tid =
      (match spec_select policies.enum ip sp dp tid with
       | none => 2 ^ 32 - 1
       | some (j, _) => j) :=
  policy_match_spec policies ip sp dp tid hsrc hdst hpol

/-- C4 witness: the amended statement on a concrete two-policy vector
where the later policy has the lower priority; index 1 is selected. -/
theorem c4_first_best_priority_match_witness :
    opensase_policy_match [polTen, polBest] ipT 3 4 0 =
      (match spec_select [polTen, polBest].enum ipT 3 4 0 with
       | none => 2 ^ 32 - 1
       | some (j, _) => j) ∧
    opensase_policy_match [polTen, polBest] ipT 3 4 0 = 1 :=
  ⟨c4_first_best_priority_match [polTen, polBest] ipT 3 4 0 (by decide)
    (by decide) (by decide),
   by decide⟩

/-- C3 counterexample: the claims that a matched allow policy bypasses
SASE without inspection, and that globally enabled DLP sends a matched
packet to the DLP scanner, both fail.  With a single matching allow
policy and DLP globally enabled, the policy node sends the packet to the
application classifier -- neither to the bypass (ip4-lookup) arm nor to
DLP. -/
theorem c3_counterexample :
    polAllow.action = OPENSASE_ACTION_ALLOW ∧
    spec_policy_matches polAllow ipT 3 4 0 = true ∧
    opensase_policy_node_next [polAllow] ipT 3 4 0 true =
      PolicyNext.classify ∧
    PolicyNext.classify ≠ PolicyNext.dlp ∧
    PolicyNext.classify ≠ PolicyNext.ip4Lookup := by
  decide

/-- C3 (amended): for every packet leaving the policy matcher (under the
well-formedness bounds of the policy vector), if the matched policy's
action is deny the packet goes to drop; the next stage is the DLP scanner
exactly when the matched action is inspect_dlp; every other matched
action, allow included, continues to the application classifier and never
bypasses SASE; and only when no policy matches does globally enabled DLP
route the packet to the DLP scanner, otherwise to the classifier. -/
theorem c3_policy_routing (policies : List Policy) (ip : Ip4Header)
    (sp dp tid : Nat) (dlp_enabled : Bool)
    (hsrc : ip.src_address < 2 ^ 32) (hdst : ip.dst_address < 2 ^ 32)
    (hlen : policies.length < 2 ^ 32 - 1)
    (hpol : ∀ p ∈ policies, policy_in_use p = true ∧
      p.priority < 2 ^ 32 - 1 ∧ p.src_pfx < 2 ^ 32 ∧ p.dst_pfx < 2 ^ 32 ∧
      p.src_pfx_len ≤ 32 ∧ p.dst_pfx_len ≤ 32) :
    opensase_policy_node_next policies ip sp dp tid dlp_enabled =
      (match spec_select policies.enum ip sp dp tid with
       | some (j, _) =>
         if (policies.getD j polWildcard).action = OPENSASE_ACTION_DENY then
           PolicyNext.drop
         else if (policies.getD j polWildcard).action =
             OPENSASE_ACTION_INSPECT_DLP then
           PolicyNext.dlp
         else PolicyNext.classify
       | none =>
         if dlp_enabled then PolicyNext.dlp else PolicyNext.classify) := by
  unfold opensase_policy_node_next
  rw [policy_match_spec policies ip sp dp tid hsrc hdst hpol]
  cases hr : spec_select policies.enum ip sp dp tid with
  | none => simp
  | some jq =>
    obtain ⟨j, q⟩ := jq
    have hj : j < policies.length := by
      obtain ⟨p, hp, _⟩ :=
        spec_select_priority_sound policies.enum ip sp dp tid j q hr
      have := List.mem_enum_iff_getElem?.mp hp
      exact (List.getElem?_eq_some.mp this).1
    have hne : j ≠ 2 ^ 32 - 1 := by omega
    simp only [bne_iff_ne, ne_eq, hne, not_false_eq_true, if_pos]
    have hwild : (polWildcard : Policy) =
        { policy_id := 0, priority := 0, tenant_id := 0, src_pfx := 0,
          dst_pfx := 0, src_pfx_len := 0, dst_pfx_len := 0,
          src_port_min := 0, src_port_max := 0, dst_port_min := 0,
          dst_port_max := 0, protocol := 0, action := 0, qos_class := 0 } :=
      rfl
    rw [← hwild]
    by_cases h1 : (policies.getD j polWildcard).action = OPENSASE_ACTION_DENY
    · simp [h1]
    · by_cases h2 : (policies.getD j polWildcard).action =
          OPENSASE_ACTION_INSPECT_DLP
      · simp [h1, h2]
      · simp [h1, h2]

/-- C3 witness: the amended statement at a single matching allow policy
with DLP globally enabled; the packet goes to the classifier. -/
theorem c3_policy_routing_witness :
    opensase_policy_node_next [polAllow] ipT 3 4 0 true =
      (match spec_select [polAllow].enum ipT 3 4 0 with
       | some (j, _) =>
         if ([polAllow].getD j polWildcard).action = OPENSASE_ACTION_DENY then
           PolicyNext.drop
         else if ([polAllow].getD j polWildcard).action =
             OPENSASE_ACTION_INSPECT_DLP then
           PolicyNext.dlp
         else PolicyNext.classify
       | none =>
         if (true : Bool) then PolicyNext.dlp else PolicyNext.classify) ∧
    opensase_policy_node_next [polAllow] ipT 3 4 0 true =
      PolicyNext.classify :=
  ⟨c3_policy_routing [polAllow] ipT 3 4 0 true (by decide) (by decide)
    (by decide) (by decide),
   by decide⟩

theorem tenant_bucket_scan_eq_find (es : List TenantEntry) (src : Nat) :
    tenant_bucket_scan es src =
      (match es.find? (fun e => e.valid && tenant_entry_match e src) with
       | some e => (e.tenant_id, e.vrf_id)
       | none => (0, 0)) := by
  induction es with
  | nil => rfl
  | cons e rest ih =>
    by_cases h : (e.valid && tenant_entry_match e src) = true
    · simp [tenant_bucket_scan, List.find?_cons, h]
    · simp only [Bool.not_eq_true] at h
      simp [tenant_bucket_scan, List.find?_cons, h, ih]

/-- C7 counterexample: the claim that the tenant classifier performs a
longest-prefix match over the installed mappings fails.  Installing
10.0.0.0/8 as tenant 1 and then 10.0.0.0/32 as tenant 2 (both succeed,
into the same bucket), a packet sourced at 10.0.0.0 is classified as
tenant 1 -- the first matching slot -- while the longest matching
installed prefix is the /32 of tenant 2. -/
theorem c7_counterexample :
    (opensase_tenant_add tenantTbl0 addrA 8 1 0).isSome = true ∧
    (opensase_tenant_add
      ((opensase_tenant_add tenantTbl0 addrA 8 1 0).getD tenantTbl0)
      addrA 32 2 0).isSome = true ∧
    tenant_lookup_fast tenantTblAB addrA = (1, 0) ∧
    spec_lpm [(addrA, 8, 1, 0), (addrA, 32, 2, 0)] addrA = (2, 0) ∧
    ((1, 0) : Nat × Nat) ≠ ((2, 0) : Nat × Nat) := by
  decide

/-- C7 (amended): for every non-VXLAN frame the tenant classifier
consults exactly one hash bucket, the one indexed by the hash of the
packet's full 32-bit source address, and returns the (tenant_id, vrf_id)
of the first valid entry of that bucket whose prefix matches the source
address -- not a longest-prefix match over all installed mappings -- and
the default tenant 0 (with vrf 0) when no entry of that bucket matches. -/
theorem c7_single_bucket_first_match (tbl : Nat → TenantBucket)
    (src : Nat) :
    tenant_lookup_fast tbl src =
      (match (tbl (clib_xxhash src &&& (65536 - 1))).entries.find?
          (fun e => e.valid && tenant_entry_match e src) with
       | some e => (e.tenant_id, e.vrf_id)
       | none => (0, 0)) := by
  unfold tenant_lookup_fast
  exact tenant_bucket_scan_eq_find _ _

/-- C8 counterexample: the claim that the fall-back scanner detects every
occurrence of the Log4j marker wherever it lies within the scanned bytes
fails.  A ten-byte payload beginning with the full marker is scanned --
it is nonempty and within the 1500-byte depth -- yet the scanner reports
no match, because its loop only visits offsets strictly below
length - 10. -/
theorem c8_counterexample :
    spec_log4j_at c8payload 0 = true ∧
    c8payload.length = 10 ∧
    (ips_scan_payload c8payload).matched = false := by
  decide

/-- C8 (amended): the fall-back scanner detects every occurrence of the
Log4j marker whose offset is strictly below length - 10 and every
case-insensitive UNION occurrence whose offset is strictly below
length - 6, reporting a match with drop action; occurrences nearer the
end of the scanned bytes are missed. -/
theorem c8_scanner_detects_interior_offsets (payload : List Nat)
    (hnz : payload ≠ []) (hlen : payload.length ≤ 1500)
    (hhit : (∃ i, i < payload.length - 10 ∧ spec_log4j_at payload i = true) ∨
      (∃ i, i < payload.length - 6 ∧ spec_union_at payload i = true)) :
    (ips_scan_payload payload).matched = true ∧
    (ips_scan_payload payload).action = IPS_ACTION_DROP := by
  have hz : (payload.length == 0) = false := by
    simp [List.length_eq_zero, hnz]
  have hbig : (decide (payload.length > 65535)) = false := by
    simp; omega
  have htake : payload.take 1500 = payload := List.take_of_length_le hlen
  unfold ips_scan_payload
  rw [hz, hbig, htake]
  simp only [Bool.or_self, Bool.false_eq_true, if_false]
  unfold simple_pattern_scan
  by_cases hc1 : (payload.length ≥ 10 &&
      (List.range (payload.length - 10)).any (log4j_check payload)) = true
  · rw [if_pos hc1]
    exact ⟨rfl, rfl⟩
  · rw [if_neg (by simp [hc1])]
    have hunion : ∃ i, i < payload.length - 6 ∧
        spec_union_at payload i = true := by
      rcases hhit with ⟨i, hi, hsp⟩ | h
      · exfalso
        apply hc1
        rw [Bool.and_eq_true]
        constructor
        · simp; omega
        · rw [List.any_eq_true]
          refine ⟨i, List.mem_range.mpr hi, ?_⟩
          unfold spec_log4j_at at hsp
          unfold log4j_check
          simp only [Bool.and_eq_true, Bool.or_eq_true] at hsp ⊢
          exact ⟨⟨hsp.1.1.1.1.1.1.1, hsp.1.1.1.1.1.1.2⟩,
            Or.inl hsp.1.1.1.1.1.2⟩
      · exact h
    obtain ⟨i, hi, hsp⟩ := hunion
    have hc2 : (payload.length ≥ 6 &&
        (List.range (payload.length - 6)).any (union_check payload)) = true := by
      rw [Bool.and_eq_true]
      constructor
      · simp; omega
      · rw [List.any_eq_true]
        refine ⟨i, List.mem_range.mpr hi, ?_⟩
        unfold spec_union_at at hsp
        rw [Bool.and_eq_true] at hsp
        exact hsp.1
    rw [if_pos hc2]
    exact ⟨rfl, rfl⟩

/-- C8 witness: the amended statement at the concrete twelve-byte payload
with UNION at offset 2. -/
theorem c8_scanner_detects_interior_offsets_witness :
    (ips_scan_payload c8unionPayload).matched = true ∧
    (ips_scan_payload c8unionPayload).action = IPS_ACTION_DROP :=
  c8_scanner_detects_interior_offsets c8unionPayload (by decide) (by decide)
    (Or.inr ⟨2, by decide, by decide⟩)

/-- C5: the claim that the scavenger token bucket is consulted for every
scavenger-class packet regardless of its position within the batch is the
intent (the quad loop ends its rate-limit block with a comment that the
other packets are handled the same way, simplified), but the code
consults the bucket only for the first packet of each quad and never in
the trailing single-packet loop.  With every limiter an empty configured
bucket, a quad of identical scavenger packets yields drop for the first
packet only, and a lone scavenger packet is never rate-limited at all. -/
theorem c5_rate_limit_position_dependent :
    tbEmpty.rate_bps > 0 ∧
    tbEmpty.tokens < mkRat qosPktScav.len 1 ∧
    (opensase_qos_node [qosPktScav, qosPktScav, qosPktScav, qosPktScav]
        qosStEmpty 1).1.map Prod.snd =
      [QosNext.drop, QosNext.ip4Lookup, QosNext.ip4Lookup,
        QosNext.ip4Lookup] ∧
    (opensase_qos_node [qosPktScav] qosStEmpty 1).1.map Prod.snd =
      [QosNext.ip4Lookup] := by
  decide

/-- C6: the claim that QoS marking leaves the IP header checksum correct
for the updated header is the intent (the C comment says the checksum is
updated incrementally and dead variables hold the old and new ToS), but
apply_dscp stores the checksum computed over the header before the new
ToS byte is written.  At a header with ToS 0 marked realtime, the DSCP
bits are rewritten to 46 (ToS 184) and the ECN bits of a ToS 3 header
are preserved, yet the stored checksum equals the checksum of the old
header and differs from the checksum of the updated header. -/
theorem c6_checksum_stale_after_marking :
    (apply_dscp hdrC6 OPENSASE_QOS_REALTIME).tos = 184 ∧
    (apply_dscp { hdrC6 with tos := 3 } OPENSASE_QOS_REALTIME).tos = 187 ∧
    (apply_dscp hdrC6 OPENSASE_QOS_REALTIME).checksum =
      ip4_header_checksum hdrC6 ∧
    (apply_dscp hdrC6 OPENSASE_QOS_REALTIME).checksum ≠
      ip4_header_checksum (apply_dscp hdrC6 OPENSASE_QOS_REALTIME) := by
  decide

/-- C1 witness: the amended statement at the concrete single-port worker
and the concrete missing 5-tuple. -/
theorem c1_port_assignment_no_failure_witness :
    (opensase_nat_step natWorkerCol natPktMiss 0 100).2.2 =
      NatNext.encrypt ∧
    ((opensase_nat_step natWorkerCol natPktMiss 0 100).1.tenant_pools
        (natSelectedPool natWorkerCol 0)).next_port =
      natAdvancedCursor
        (natWorkerCol.tenant_pools (natSelectedPool natWorkerCol 0)) :=
  ⟨(c1_port_assignment_no_failure natWorkerCol natPktMiss 0 100
      (by decide)).1,
   (c1_port_assignment_no_failure natWorkerCol natPktMiss 0 100
      (by decide)).2.2.2⟩

end OpenSASE
